import Mathlib

/-!
Verification of the provisioning/teardown orchestrator of aws-k8s-tester
(`eks/eks.go`).  The orchestrator is embedded shallowly:

* `Config` mirrors the orchestrator-relevant part of `eksconfig.Config`:
  per-add-on `Enabled`/`Created`/`FetchLogs` flags (indexed by `AddOnId`),
  `Parameters.VPCCreate`, `OnFailureDelete`, `OnFailureDeleteWaitSeconds`,
  the optional hook commands and the optional `Status`.
* `Env` abstracts the external collaborators: every cloud/cluster operation
  invoked by the sagas (createS3 … deleteS3, each add-on's
  Create/Delete/FetchLogs/AggregateResults, checkHealth, the GPU bootstrap,
  the hook file writes) is an outcome `Option String` (`some msg` = the call
  returned that error, `none` = success), plus which tester handles were
  materialized by `createSubTesters` (`handle`), and whether the Stop Signal
  has fired (`stopFired`).
* Both sagas return the list of `Event`s they performed, in order, which is
  the trace the claims speak about.  Log statements, `uploadToS3` (whose
  error is only logged) and the captured output of hook commands do not
  influence any control flow in the source and are not part of the trace.

Modelled from the spec (the corresponding code is in this repository but not
under src/): `catchInterrupt` (the interruptible step executor of section
4.1), the sub-testers' clearing of their own `Created` flag after a
successful `Delete` (section 4.3, "state was persisted after each successful
deletion"), and `Config.Sync` (persistence, to which the spec assigns no
failure mode; it is modelled as always succeeding).  Each such definition
carries a doc comment saying so.
-/

namespace EKS

/-- The add-ons of the orchestrator, one per `AddOnX` block of
`eksconfig.Config` (plus the two node-group add-ons). -/
inductive AddOnId
  | nodeGroups
  | managedNodeGroups
  | conformance
  | csiEBS
  | appMesh
  | kubernetesDashboard
  | prometheusGrafana
  | nlbHelloWorld
  | alb2048
  | jobsPi
  | jobsEcho
  | cronJobs
  | csrsLocal
  | csrsRemote
  | configMapsLocal
  | configMapsRemote
  | secretsLocal
  | secretsRemote
  | fargate
  | irsa
  | irsaFargate
  | wordpress
  | jupyterHub
  | kubeflow
  | hollowNodesLocal
  | hollowNodesRemote
  | clusterLoaderLocal
  | clusterLoaderRemote
  | stresserLocal
  | stresserRemote
  deriving DecidableEq, Repr

/-- Per-add-on persisted flags: `Enable`, `Created`, `FetchLogs`. -/
structure AddOnState where
  enabled : Bool
  created : Bool
  fetchLogs : Bool
  deriving DecidableEq, Repr

/-- `eksconfig.Status`: the global `Up` flag (the rest of the status is not
read by the orchestrator's control flow). -/
structure Status where
  up : Bool
  deriving DecidableEq, Repr

/-- The orchestrator-relevant part of `eksconfig.Config`. -/
structure Config where
  addOns : AddOnId → AddOnState
  /-- `Parameters.VPCCreate`: the VPC was created by this tool, not imported. -/
  vpcCreate : Bool
  onFailureDelete : Bool
  onFailureDeleteWaitSeconds : Nat
  commandAfterCreateCluster : String
  commandAfterCreateAddOns : String
  /-- `AddOnNodeGroups.ASGs[*].AMIType` values. -/
  ngASGAMITypes : List String
  /-- `AddOnManagedNodeGroups.MNGs[*].AMIType` values. -/
  mngAMITypes : List String
  status : Option Status

/-- Trace events: one per operation the sagas invoke, plus the settle sleeps
(tagged with their duration in seconds). -/
inductive Event
  | create (a : AddOnId)
  | del (a : AddOnId)
  | fetchLogs (a : AddOnId)
  | aggregate (a : AddOnId)
  | sleep (sec : Nat)
  | s3Create
  | encryptionCreate
  | keyPairCreate
  | roleCreate
  | vpcCreate
  | clusterCreate
  | health
  | gpuInstallDriver
  | gpuSMI
  | hookAfterCreateCluster
  | hookAfterCreateAddOns
  | keyPairDel
  | clusterDel
  | encryptionDel
  | roleDel
  | vpcDel
  | s3Del
  | downInvoked
  deriving DecidableEq, Repr

/-- Outcomes of the external collaborators: `some msg` means the call failed
with that error message, `none` means it succeeded. -/
structure Env where
  createS3Res : Option String
  createEncryptionRes : Option String
  createKeyPairRes : Option String
  createClusterRoleRes : Option String
  createVPCRes : Option String
  createClusterRes : Option String
  checkHealthRes : Option String
  createRes : AddOnId → Option String
  deleteRes : AddOnId → Option String
  fetchLogsRes : AddOnId → Option String
  aggregateRes : AddOnId → Option String
  gpuInstallRes : Option String
  gpuSMIRes : Option String
  evaluateCommandRefsRes : Option String
  writeAfterCreateClusterRes : Option String
  writeAfterCreateAddOnsRes : Option String
  deleteKeyPairRes : Option String
  deleteClusterRes : Option String
  deleteEncryptionRes : Option String
  deleteClusterRoleRes : Option String
  deleteVPCRes : Option String
  deleteS3Res : Option String
  /-- Whether `createSubTesters` materialized the tester handle (`false` =
  the `ts.xTester` field is nil). -/
  handle : AddOnId → Bool
  /-- Whether the Stop Signal (stop channel or OS signal) has fired. -/
  stopFired : Bool

/-- Modelled from the spec (section 4.3): a sub-tester's successful `Delete`
persists `Created = false` for that add-on (the sub-tester code is not under
src/). -/
def Config.clearCreated (cfg : Config) (c : AddOnId) : Config :=
  { cfg with
      addOns := fun a =>
        if a = c then { cfg.addOns a with created := false } else cfg.addOns a }

/-- Accumulated teardown state: the threaded config, the events so far and
the aggregated error list (`errs` in `down`). -/
structure St where
  cfg : Config
  evs : List Event
  errs : List String

/-- One unconditional infrastructure deletion step of `down`: the call is
always attempted, a failure is appended to the aggregate error list. -/
def infraStep (ev : Event) (r : Option String) (st : St) : St :=
  { st with evs := st.evs ++ [ev], errs := st.errs ++ r.toList }

/-- One `Created`-guarded add-on deletion block of `down`.  `g` is the add-on
whose `Enable && Created` flags gate the block, `c` the add-on whose tester's
`Delete` is actually invoked (they differ only in the cluster-loader-local
block, which invokes `clusterLoaderRemoteTester.Delete`), `slp` the settle
delay slept on success.  On success the sub-tester persists `Created = false`
for `c` (see `Config.clearCreated`). -/
def delBlock (g c : AddOnId) (slp : Option Nat) (env : Env) (st : St) : St :=
  let a := st.cfg.addOns g
  if a.enabled && a.created then
    { cfg := if (env.deleteRes c).isNone then st.cfg.clearCreated c else st.cfg
      evs := st.evs ++ [Event.del c] ++
        (if (env.deleteRes c).isNone then (slp.map Event.sleep).toList else [])
      errs := st.errs ++ (env.deleteRes c).toList }
  else st

/-- The node-group deletion blocks of `down` (managed, then unmanaged): gated
by `IsEnabled && tester != nil` only — the `Created` flag is not consulted —
and always followed by a 10 second sleep before cluster deletion. -/
def ngDelBlock (c : AddOnId) (env : Env) (st : St) : St :=
  if (st.cfg.addOns c).enabled && env.handle c then
    { cfg := if (env.deleteRes c).isNone then st.cfg.clearCreated c else st.cfg
      evs := st.evs ++ [Event.del c] ++ [Event.sleep 10]
      errs := st.errs ++ (env.deleteRes c).toList }
  else st

/-- Descriptor of one `Created`-guarded deletion block of `down`: the add-on
whose flags gate the block, the add-on whose tester's `Delete` is invoked,
and the settle delay slept on success. -/
structure DelSpec where
  g : AddOnId
  c : AddOnId
  slp : Option Nat
  deriving DecidableEq, Repr

/-- The `Created`-guarded deletion blocks of `down` (lines 1855-2126), in
source order.  `csrsLocal` and `configMapsRemote` have no block in the
source; the `clusterLoaderLocal` block invokes
`clusterLoaderRemoteTester.Delete` (source line 1895). -/
def downDelSpecs : List DelSpec :=
  [⟨.stresserRemote, .stresserRemote, some 20⟩,
   ⟨.stresserLocal, .stresserLocal, some 20⟩,
   ⟨.clusterLoaderRemote, .clusterLoaderRemote, some 20⟩,
   ⟨.clusterLoaderLocal, .clusterLoaderRemote, some 20⟩,
   ⟨.hollowNodesRemote, .hollowNodesRemote, none⟩,
   ⟨.hollowNodesLocal, .hollowNodesLocal, none⟩,
   ⟨.kubeflow, .kubeflow, none⟩,
   ⟨.jupyterHub, .jupyterHub, some 20⟩,
   ⟨.wordpress, .wordpress, some 20⟩,
   ⟨.irsaFargate, .irsaFargate, none⟩,
   ⟨.irsa, .irsa, none⟩,
   ⟨.fargate, .fargate, none⟩,
   ⟨.secretsLocal, .secretsLocal, none⟩,
   ⟨.secretsRemote, .secretsRemote, none⟩,
   ⟨.configMapsLocal, .configMapsLocal, none⟩,
   ⟨.csrsRemote, .csrsRemote, none⟩,
   ⟨.cronJobs, .cronJobs, none⟩,
   ⟨.jobsEcho, .jobsEcho, none⟩,
   ⟨.jobsPi, .jobsPi, none⟩,
   ⟨.alb2048, .alb2048, some 60⟩,
   ⟨.nlbHelloWorld, .nlbHelloWorld, some 60⟩,
   ⟨.prometheusGrafana, .prometheusGrafana, some 20⟩,
   ⟨.kubernetesDashboard, .kubernetesDashboard, none⟩,
   ⟨.appMesh, .appMesh, none⟩,
   ⟨.csiEBS, .csiEBS, some 20⟩,
   ⟨.conformance, .conformance, some 20⟩]

/-- Run one descriptor-described deletion block. -/
def runDel (env : Env) (st : St) (b : DelSpec) : St :=
  delBlock b.g b.c b.slp env st

/-- The teardown saga `down` of `eks.go` (lines 1809-2224), block for block
in source order (the guarded add-on blocks as the fold over their
descriptors).  Returns the final state and the returned error: the join of
the aggregate error list when non-empty, otherwise the result of
`cfg.Sync()`, which is modelled from the spec as always succeeding. -/
def down (cfg : Config) (env : Env) : St × Option String :=
  let st : St := ⟨cfg, [], []⟩
  let st := infraStep Event.keyPairDel env.deleteKeyPairRes st
  let st := downDelSpecs.foldl (runDel env) st
  -- settle after load-balancer-backed service deletion (lines 2143-2149)
  let st :=
    if ((st.cfg.addOns .nodeGroups).enabled || (st.cfg.addOns .managedNodeGroups).enabled)
        && (((st.cfg.addOns .alb2048).enabled && (st.cfg.addOns .alb2048).created)
          || ((st.cfg.addOns .nlbHelloWorld).enabled && (st.cfg.addOns .nlbHelloWorld).created))
    then { st with evs := st.evs ++ [Event.sleep 120] }
    else st
  let st := ngDelBlock .managedNodeGroups env st
  let st := ngDelBlock .nodeGroups env st
  let st := infraStep Event.clusterDel env.deleteClusterRes st
  let st := infraStep Event.encryptionDel env.deleteEncryptionRes st
  let st := infraStep Event.roleDel env.deleteClusterRoleRes st
  -- settle before VPC deletion, only when the VPC was created by this tool
  let st :=
    if st.cfg.vpcCreate then { st with evs := st.evs ++ [Event.sleep 30] } else st
  let st := infraStep Event.vpcDel env.deleteVPCRes st
  let st := infraStep Event.s3Del env.deleteS3Res st
  (st, if st.errs.isEmpty then none
       else some (String.intercalate ", " st.errs))

/-- The events `down` performs, in order. -/
def downTrace (cfg : Config) (env : Env) : List Event :=
  (down cfg env).1.evs

/-- The aggregate error list `errs` at the end of `down`. -/
def downErrs (cfg : Config) (env : Env) : List String :=
  (down cfg env).1.errs

/-- The config state after `down` (the persisted `Created` flags). -/
def downCfg (cfg : Config) (env : Env) : Config :=
  (down cfg env).1.cfg

/-- The error `down` returns. -/
def downRes (cfg : Config) (env : Env) : Option String :=
  (down cfg env).2

/-- Modelled from the spec (section 3): the single-fire Stop Signal
(`stopCreationCh` closed through `stopCreationChOnce`; that firing code is
not under src/).  Its only observable state is whether it has fired. -/
structure StopSignal where
  fired : Bool
  deriving DecidableEq, Repr

/-- Firing the Stop Signal: after it, the signal is (permanently) fired. -/
def StopSignal.fire (_s : StopSignal) : StopSignal := { fired := true }

/-- A whole sequence of fire events applied in order. -/
def StopSignal.fireAll (s : StopSignal) : List Unit → StopSignal
  | [] => s
  | _ :: rest => StopSignal.fireAll s.fire rest

/-- Modelled from the spec (section 4.1): `catchInterrupt`, the interruptible
step executor (not under src/).  If the Stop Signal fired, the caller sees an
interrupted result instead of the step's own result; the step itself is
started either way and is not forcibly terminated. -/
def catchInterrupt (env : Env) (r : Option String) : Option String :=
  if env.stopFired then some "interrupted" else r

/-- A step or block result of the Up saga: the events it performed and its
error, `some msg` aborting the saga. -/
abbrev UpRes := List Event × Option String

/-- Sequencing of Up: if the first part failed, Up returned its error there
and the second part never ran. -/
def stepSeq (p q : UpRes) : UpRes :=
  if p.2.isSome then p else (p.1 ++ q.1, q.2)

/-- The internal-consistency error returned when an add-on is enabled but its
tester handle is nil, verbatim per add-on from `Up` in `eks.go`. -/
def nilTesterMsg : AddOnId → String
  | .nodeGroups => "ts.ngTester == nil when AddOnNodeGroups.Enable == true"
  | .managedNodeGroups => "ts.mngTester == nil when AddOnManagedNodeGroups.Enable == true"
  | .conformance => "ts.conformanceTester == nil when AddOnConformance.Enable == true"
  | .csiEBS => "ts.csiEBSTester == nil when AddOnCSIEBS.Enable == true"
  | .appMesh => "ts.appMeshTester == nil when AddOnAppMesh.Enable == true"
  | .kubernetesDashboard => "ts.kubernetesDashboardTester == nil when AddOnKubernetesDashboard.Enable == true"
  | .prometheusGrafana => "ts.prometheusGrafanaTester == nil when AddOnKubernetesDashboard.Enable == true"
  | .nlbHelloWorld => "ts.nlbHelloWorldTester == nil when AddOnNLBHelloWorld.Enable == true"
  | .alb2048 => "ts.alb2048Tester == nil when AddOnALB2048.Enable == true"
  | .jobsPi => "ts.jobsPiTester == nil when AddOnJobsPi.Enable == true"
  | .jobsEcho => "ts.jobsEchoTester == nil when AddOnJobsEcho.Enable == true"
  | .cronJobs => "ts.cronJobsTester == nil when AddOnCronJobs.Enable == true"
  | .csrsLocal => "ts.csrsLocalTester == nil when AddOnCSRsLocal.Enable == true"
  | .csrsRemote => "ts.csrsRemoteTester == nil when AddOnCSRsRemote.Enable == true"
  | .configMapsLocal => "ts.configMapsLocalTester == nil when AddOnConfigMapsLocal.Enable == true"
  | .configMapsRemote => "ts.configMapsRemoteTester == nil when AddOnConfigMapsRemote.Enable == true"
  | .secretsLocal => "ts.secretsLocalTester == nil when AddOnSecretsLocal.Enable == true"
  | .secretsRemote => "ts.secretsRemoteTester == nil when AddOnSecretsRemote.Enable == true"
  | .fargate => "ts.fargateTester == nil when AddOnFargate.Enable == true"
  | .irsa => "ts.irsaTester == nil when AddOnIRSA.Enable == true"
  | .irsaFargate => "ts.irsaFargateTester == nil when AddOnIRSAFargate.Enable == true"
  | .wordpress => "ts.wordPressTester == nil when AddOnWordpress.Enable == true"
  | .jupyterHub => "ts.jupyterHubTester == nil when AddOnJupyterHub.Enable == true"
  | .kubeflow => "ts.kubeflowTester == nil when AddOnKubeflow.Enable == true"
  | .hollowNodesLocal => "ts.hollowNodesLocalTester == nil when AddOnHollowNodesLocal.Enable == true"
  | .hollowNodesRemote => "ts.hollowNodesRemoteTester == nil when AddOnHollowNodesRemote.Enable == true"
  | .clusterLoaderLocal => "ts.clusterLoaderLocalTester == nil when AddOnClusterLoader.Enable == true"
  | .clusterLoaderRemote => "ts.clusterLoaderRemoteTester == nil when AddOnClusterLoader.Enable == true"
  | .stresserLocal => "ts.stresserLocalTester == nil when AddOnStresserLocal.Enable == true"
  | .stresserRemote => "ts.stresserRemoteTester == nil when AddOnStresserRemote.Enable == true"

/-- One add-on creation block of `Up`: skipped when disabled; an enabled
add-on whose tester handle is nil is a fatal internal-consistency error;
otherwise `Create` runs gated through the interruptible executor. -/
def createBlock (a : AddOnId) (cfg : Config) (env : Env) : UpRes :=
  if (cfg.addOns a).enabled then
    if env.handle a then ([Event.create a], catchInterrupt env (env.createRes a))
    else ([], some (nilTesterMsg a))
  else ([], none)

/-- `ec2config.AMITypeAL2X8664GPU` / `aws_eks.AMITypesAl2X8664Gpu`. -/
def amiTypeAL2X8664GPU : String := "AL2_x86_64_GPU"

/-- Whether any configured node group's AMI family requires GPU drivers
(the two guarded scan loops of `Up`, lines 1072-1092). -/
def needGPU (cfg : Config) : Bool :=
  ((cfg.addOns .nodeGroups).enabled
      && cfg.ngASGAMITypes.any (fun t => t = amiTypeAL2X8664GPU))
    || ((cfg.addOns .managedNodeGroups).enabled
      && cfg.mngAMITypes.any (fun t => t = amiTypeAL2X8664GPU))

/-- The conditional GPU bootstrap of `Up`: install drivers, then the
nvidia-smi smoke test, each fatal on error. -/
def gpuBlock (cfg : Config) (env : Env) : UpRes :=
  if needGPU cfg then
    stepSeq ([Event.gpuInstallDriver], catchInterrupt env env.gpuInstallRes)
            ([Event.gpuSMI], catchInterrupt env env.gpuSMIRes)
  else ([], none)

/-- The operator-hook blocks of `Up` (`CommandAfterCreateCluster` /
`CommandAfterCreateAddOns`): run only when the command is non-empty;
`EvaluateCommandRefs` failure aborts before the command runs; the command's
own result is captured to the output file and aborts the saga only when that
file write fails. -/
def hookBlock (cmd : String) (ev : Event) (writeRes : Option String)
    (env : Env) : UpRes :=
  if cmd ≠ "" then
    if env.evaluateCommandRefsRes.isSome then ([], env.evaluateCommandRefsRes)
    else ([ev], writeRes)
  else ([], none)

/-- The node-group log-fetch blocks of `Up` (lines 1631-1675): gated by
`Enable && Created && FetchLogs`, nil-checked, preceded by a 15 second sleep. -/
def fetchLogsBlock (a : AddOnId) (cfg : Config) (env : Env) : UpRes :=
  let s := cfg.addOns a
  if s.enabled && s.created && s.fetchLogs then
    if env.handle a then
      ([Event.sleep 15, Event.fetchLogs a], catchInterrupt env (env.fetchLogsRes a))
    else ([], some (nilTesterMsg a))
  else ([], none)

/-- One `AggregateResults` call of the aggregation pass (enabled-gated, no
nil check in the source). -/
def aggBlock (a : AddOnId) (cfg : Config) (env : Env) : UpRes :=
  if (cfg.addOns a).enabled then
    ([Event.aggregate a], catchInterrupt env (env.aggregateRes a))
  else ([], none)

/-- The result-aggregation pass of `Up` (lines 1677-1763), run only when a
node-group add-on had its logs fetched. -/
def aggregateSection (cfg : Config) (env : Env) : UpRes :=
  let ng := cfg.addOns .nodeGroups
  let mng := cfg.addOns .managedNodeGroups
  if (ng.enabled && ng.created && ng.fetchLogs)
      || (mng.enabled && mng.created && mng.fetchLogs) then
    stepSeq (aggBlock .csrsRemote cfg env)
    (stepSeq (aggBlock .secretsRemote cfg env)
    (stepSeq (aggBlock .irsa cfg env)
    (stepSeq (aggBlock .configMapsRemote cfg env)
    (stepSeq (aggBlock .clusterLoaderRemote cfg env)
             (aggBlock .stresserRemote cfg env)))))
  else ([], none)

/-- The body of the provisioning saga `Up` of `eks.go` (lines 928-1797),
block for block in source order; every cloud step is gated through the
interruptible executor and the first error aborts the rest.  The final
`cfg.Sync()` is modelled from the spec as always succeeding. -/
def upBody (cfg : Config) (env : Env) : UpRes :=
  stepSeq ([Event.s3Create], catchInterrupt env env.createS3Res)
  (stepSeq ([Event.encryptionCreate], catchInterrupt env env.createEncryptionRes)
  (stepSeq ([Event.keyPairCreate], catchInterrupt env env.createKeyPairRes)
  (stepSeq ([Event.roleCreate], catchInterrupt env env.createClusterRoleRes)
  (stepSeq ([Event.vpcCreate], catchInterrupt env env.createVPCRes)
  (stepSeq ([Event.clusterCreate], catchInterrupt env env.createClusterRes)
  (stepSeq ([Event.sleep 30, Event.health], catchInterrupt env env.checkHealthRes)
  (stepSeq (hookBlock cfg.commandAfterCreateCluster Event.hookAfterCreateCluster
              env.writeAfterCreateClusterRes env)
  (stepSeq (createBlock .nodeGroups cfg env)
  (stepSeq (createBlock .managedNodeGroups cfg env)
  (stepSeq (gpuBlock cfg env)
  (stepSeq (createBlock .conformance cfg env)
  (stepSeq (createBlock .csiEBS cfg env)
  (stepSeq (createBlock .appMesh cfg env)
  (stepSeq (createBlock .kubernetesDashboard cfg env)
  (stepSeq (createBlock .prometheusGrafana cfg env)
  (stepSeq ([Event.health], catchInterrupt env env.checkHealthRes)
  (stepSeq (createBlock .nlbHelloWorld cfg env)
  (stepSeq (createBlock .alb2048 cfg env)
  (stepSeq (createBlock .jobsPi cfg env)
  (stepSeq (createBlock .jobsEcho cfg env)
  (stepSeq (createBlock .cronJobs cfg env)
  (stepSeq (createBlock .csrsLocal cfg env)
  (stepSeq (createBlock .csrsRemote cfg env)
  (stepSeq (createBlock .configMapsLocal cfg env)
  (stepSeq (createBlock .configMapsRemote cfg env)
  (stepSeq (createBlock .secretsLocal cfg env)
  (stepSeq (createBlock .secretsRemote cfg env)
  (stepSeq (createBlock .fargate cfg env)
  (stepSeq (createBlock .irsa cfg env)
  (stepSeq (createBlock .irsaFargate cfg env)
  (stepSeq (createBlock .wordpress cfg env)
  (stepSeq (createBlock .jupyterHub cfg env)
  (stepSeq (createBlock .kubeflow cfg env)
  (stepSeq (createBlock .hollowNodesLocal cfg env)
  (stepSeq (createBlock .hollowNodesRemote cfg env)
  (stepSeq (createBlock .clusterLoaderLocal cfg env)
  (stepSeq (createBlock .clusterLoaderRemote cfg env)
  (stepSeq (createBlock .stresserLocal cfg env)
  (stepSeq (createBlock .stresserRemote cfg env)
  (stepSeq (fetchLogsBlock .nodeGroups cfg env)
  (stepSeq (fetchLogsBlock .managedNodeGroups cfg env)
  (stepSeq (aggregateSection cfg env)
  (stepSeq ([Event.health], catchInterrupt env env.checkHealthRes)
  (hookBlock cfg.commandAfterCreateAddOns Event.hookAfterCreateAddOns
     env.writeAfterCreateAddOnsRes env))))))))))))))))))))))))))))))))))))))))))))

/-- The provisioning saga `Up` including its deferred failure handling
(lines 816-920): on failure with `OnFailureDelete` enabled, wait the
(interruptible) cool-down and invoke `down` exactly once as compensation;
the original error is returned either way. -/
def Up (cfg : Config) (env : Env) : List Event × Option String :=
  let b := upBody cfg env
  match b.2 with
  | none => (b.1, none)
  | some e =>
    if cfg.onFailureDelete then
      let w : List Event :=
        if cfg.onFailureDeleteWaitSeconds > 0
        then [Event.sleep cfg.onFailureDeleteWaitSeconds] else []
      (b.1 ++ w ++ [Event.downInvoked] ++ downTrace cfg env, some e)
    else (b.1, some e)

/-- The events `Up` performs, in order. -/
def upTrace (cfg : Config) (env : Env) : List Event :=
  (Up cfg env).1

/-- The error `Up` returns. -/
def upRes (cfg : Config) (env : Env) : Option String :=
  (Up cfg env).2

/-- `IsUp` of `eks.go` (lines 2229-2240).  Result: the `(up, err)` pair the
caller sees, paired with whether `checkHealth` was invoked. -/
def IsUp (cfg? : Option Config) (env : Env) : (Bool × Option String) × Bool :=
  match cfg? with
  | none => ((false, none), false)
  | some cfg =>
    match cfg.status with
    | none => ((false, none), false)
    | some st =>
      if !st.up then ((false, none), false)
      else ((true, env.checkHealthRes), true)

/-- An add-on that is disabled and was never created. -/
def addOnOff : AddOnState := ⟨false, false, false⟩

/-- Baseline config: every add-on disabled, imported VPC, no compensation,
no hooks. -/
def cfg0 : Config :=
  { addOns := fun _ => addOnOff
    vpcCreate := false
    onFailureDelete := false
    onFailureDeleteWaitSeconds := 0
    commandAfterCreateCluster := ""
    commandAfterCreateAddOns := ""
    ngASGAMITypes := []
    mngAMITypes := []
    status := none }

/-- The events one guarded deletion block contributes, as a function of the
config the block's guard reads. -/
def blockEvs (cfg : Config) (env : Env) (b : DelSpec) : List Event :=
  if (cfg.addOns b.g).enabled && (cfg.addOns b.g).created then
    Event.del b.c ::
      (if (env.deleteRes b.c).isNone then (b.slp.map Event.sleep).toList else [])
  else []

/-- The error messages one guarded deletion block appends. -/
def blockErrs (cfg : Config) (env : Env) (b : DelSpec) : List String :=
  if (cfg.addOns b.g).enabled && (cfg.addOns b.g).created then
    (env.deleteRes b.c).toList
  else []

/-- The `Created` flag of add-on `a` after its own deletion block ran (false
exactly when the block ran and the delete succeeded). -/
def createdAfterDel (cfg : Config) (env : Env) (a : AddOnId) : Bool :=
  if ((cfg.addOns a).enabled && (cfg.addOns a).created)
      && (env.deleteRes a).isNone
  then false else (cfg.addOns a).created

/-- The load-balancer settle sleep of `down` (lines 2143-2149), whose guard
reads the `Created` flags after the ALB/NLB deletion blocks ran. -/
def downLBSettle (cfg : Config) (env : Env) : List Event :=
  if ((cfg.addOns .nodeGroups).enabled || (cfg.addOns .managedNodeGroups).enabled)
      && (((cfg.addOns .alb2048).enabled && createdAfterDel cfg env .alb2048)
        || ((cfg.addOns .nlbHelloWorld).enabled
            && createdAfterDel cfg env .nlbHelloWorld))
  then [Event.sleep 120] else []

/-- The full `down` trace, written as one concatenation of per-phase lists
over the initial config (proved equal to `downTrace`). -/
def downTraceSpec (cfg : Config) (env : Env) : List Event :=
  [Event.keyPairDel]
  ++ (downDelSpecs.map (blockEvs cfg env)).flatten
  ++ downLBSettle cfg env
  ++ (if (cfg.addOns .managedNodeGroups).enabled && env.handle .managedNodeGroups
      then [Event.del .managedNodeGroups, Event.sleep 10] else [])
  ++ (if (cfg.addOns .nodeGroups).enabled && env.handle .nodeGroups
      then [Event.del .nodeGroups, Event.sleep 10] else [])
  ++ [Event.clusterDel, Event.encryptionDel, Event.roleDel]
  ++ (if cfg.vpcCreate then [Event.sleep 30] else [])
  ++ [Event.vpcDel, Event.s3Del]

/-- The full `down` aggregate error list, written as one concatenation of
per-phase lists over the initial config (proved equal to `downErrs`). -/
def downErrsSpec (cfg : Config) (env : Env) : List String :=
  env.deleteKeyPairRes.toList
  ++ (downDelSpecs.map (blockErrs cfg env)).flatten
  ++ (if (cfg.addOns .managedNodeGroups).enabled && env.handle .managedNodeGroups
      then (env.deleteRes .managedNodeGroups).toList else [])
  ++ (if (cfg.addOns .nodeGroups).enabled && env.handle .nodeGroups
      then (env.deleteRes .nodeGroups).toList else [])
  ++ env.deleteClusterRes.toList
  ++ env.deleteEncryptionRes.toList
  ++ env.deleteClusterRoleRes.toList
  ++ env.deleteVPCRes.toList
  ++ env.deleteS3Res.toList

/-- The fixed infrastructure deletions of `down`. -/
def isInfraDel : Event → Bool
  | .keyPairDel | .clusterDel | .encryptionDel | .roleDel | .vpcDel | .s3Del => true
  | _ => false

/-- Settle-delay events. -/
def Event.isSleep : Event → Bool
  | .sleep _ => true
  | _ => false

/-- `a` happens, later some settle delay, later `b`, within trace `tr`. -/
def SleepBetween (a b : Event) (tr : List Event) : Prop :=
  ∃ l₁ l₂ l₃, tr = l₁ ++ a :: l₂ ++ b :: l₃ ∧ l₂.any Event.isSleep

/-- For which add-ons a single `down` run invokes the tester's `Delete`:
the `Created`-guarded blocks for their own add-on, the node-group testers
whenever enabled with a non-nil handle (their `Created` flag is not
consulted), `clusterLoaderRemote` additionally through the mistargeted
`clusterLoaderLocal` block, and never for `clusterLoaderLocal`, `csrsLocal`
or `configMapsRemote` themselves. -/
def deleteInvokedSpec (cfg : Config) (env : Env) : AddOnId → Bool
  | .nodeGroups =>
      (cfg.addOns .nodeGroups).enabled && env.handle .nodeGroups
  | .managedNodeGroups =>
      (cfg.addOns .managedNodeGroups).enabled && env.handle .managedNodeGroups
  | .clusterLoaderRemote =>
      ((cfg.addOns .clusterLoaderRemote).enabled
          && (cfg.addOns .clusterLoaderRemote).created)
        || ((cfg.addOns .clusterLoaderLocal).enabled
          && (cfg.addOns .clusterLoaderLocal).created)
  | .clusterLoaderLocal => false
  | .csrsLocal => false
  | .configMapsRemote => false
  | a => (cfg.addOns a).enabled && (cfg.addOns a).created

/-- The guarded deletion blocks that invoke their own add-on's `Delete`
(every `Created`-guarded block except the two cluster-loader ones). -/
def guardedSelfDelIds : List AddOnId :=
  [.stresserRemote, .stresserLocal, .hollowNodesRemote, .hollowNodesLocal,
   .kubeflow, .jupyterHub, .wordpress, .irsaFargate, .irsa, .fargate,
   .secretsLocal, .secretsRemote, .configMapsLocal, .csrsRemote, .cronJobs,
   .jobsEcho, .jobsPi, .alb2048, .nlbHelloWorld, .prometheusGrafana,
   .kubernetesDashboard, .appMesh, .csiEBS, .conformance]

/-- The individual teardown steps, for stating which steps a `down` run
attempts. -/
inductive DownStep
  | delKeyPair
  | addOnBlock (g c : AddOnId)
  | ngBlock (c : AddOnId)
  | delCluster
  | delEncryption
  | delClusterRole
  | delVPC
  | delS3
  deriving DecidableEq, Repr

/-- The steps a `down` run attempts, in order: determined by the config's
flags and the materialized handles alone, never by any step's outcome. -/
def downAttempts (cfg : Config) (h : AddOnId → Bool) : List DownStep :=
  [DownStep.delKeyPair]
  ++ (downDelSpecs.map (fun b =>
       if (cfg.addOns b.g).enabled && (cfg.addOns b.g).created
       then [DownStep.addOnBlock b.g b.c] else [])).flatten
  ++ (if (cfg.addOns .managedNodeGroups).enabled && h .managedNodeGroups
      then [DownStep.ngBlock .managedNodeGroups] else [])
  ++ (if (cfg.addOns .nodeGroups).enabled && h .nodeGroups
      then [DownStep.ngBlock .nodeGroups] else [])
  ++ [DownStep.delCluster, DownStep.delEncryption, DownStep.delClusterRole,
      DownStep.delVPC, DownStep.delS3]

/-- The outcome of one teardown step in environment `env`. -/
def stepOutcome (env : Env) : DownStep → Option String
  | .delKeyPair => env.deleteKeyPairRes
  | .addOnBlock _ c => env.deleteRes c
  | .ngBlock c => env.deleteRes c
  | .delCluster => env.deleteClusterRes
  | .delEncryption => env.deleteEncryptionRes
  | .delClusterRole => env.deleteClusterRoleRes
  | .delVPC => env.deleteVPCRes
  | .delS3 => env.deleteS3Res

/-- The executor-gated results of the six prerequisite steps of `Up`, in
their fixed order. -/
def upPrereqRes (env : Env) : Nat → Option String
  | 0 => catchInterrupt env env.createS3Res
  | 1 => catchInterrupt env env.createEncryptionRes
  | 2 => catchInterrupt env env.createKeyPairRes
  | 3 => catchInterrupt env env.createClusterRoleRes
  | 4 => catchInterrupt env env.createVPCRes
  | 5 => catchInterrupt env env.createClusterRes
  | _ + 6 => none

/-- The invocation events of the six prerequisite steps of `Up`, in their
fixed order. -/
def prereqEvents : List Event :=
  [Event.s3Create, Event.encryptionCreate, Event.keyPairCreate,
   Event.roleCreate, Event.vpcCreate, Event.clusterCreate]

/-- Baseline environment: every collaborator call succeeds, every tester
handle is materialized, the Stop Signal has not fired. -/
def env0 : Env :=
  { createS3Res := none
    createEncryptionRes := none
    createKeyPairRes := none
    createClusterRoleRes := none
    createVPCRes := none
    createClusterRes := none
    checkHealthRes := none
    createRes := fun _ => none
    deleteRes := fun _ => none
    fetchLogsRes := fun _ => none
    aggregateRes := fun _ => none
    gpuInstallRes := none
    gpuSMIRes := none
    evaluateCommandRefsRes := none
    writeAfterCreateClusterRes := none
    writeAfterCreateAddOnsRes := none
    deleteKeyPairRes := none
    deleteClusterRes := none
    deleteEncryptionRes := none
    deleteClusterRoleRes := none
    deleteVPCRes := none
    deleteS3Res := none
    handle := fun _ => true
    stopFired := false }

/-- Managed node groups enabled but not created. -/
def cfgC1 : Config :=
  { cfg0 with
      addOns := fun a =>
        if a = .managedNodeGroups then ⟨true, false, false⟩ else addOnOff }

/-- Managed node groups enabled and created. -/
def cfgC5 : Config :=
  { cfg0 with
      addOns := fun a =>
        if a = .managedNodeGroups then ⟨true, true, false⟩ else addOnOff }

/-- The stresser-remote add-on enabled and created. -/
def cfgSR : Config :=
  { cfg0 with
      addOns := fun a =>
        if a = .stresserRemote then ⟨true, true, false⟩ else addOnOff }

/-- The Fargate add-on enabled but not created. -/
def cfgFG : Config :=
  { cfg0 with
      addOns := fun a =>
        if a = .fargate then ⟨true, false, false⟩ else addOnOff }

/-- The ALB-2048 add-on enabled and created, everything else off, VPC
imported. -/
def cfgC8 : Config :=
  { cfg0 with
      addOns := fun a => if a = .alb2048 then ⟨true, true, false⟩ else addOnOff }

/-- Failure compensation enabled. -/
def cfgOFD : Config := { cfg0 with onFailureDelete := true }

/-- A config whose status reports the cluster as up. -/
def cfgStatusUp : Config := { cfg0 with status := some ⟨true⟩ }

/-- The managed-node-group tester handle is nil. -/
def envC7 : Env :=
  { env0 with
      handle := fun a => if a = .managedNodeGroups then false else true }

/-- The ALB deletion fails; everything else succeeds. -/
def envC8 : Env :=
  { env0 with
      deleteRes := fun a =>
        if a = .alb2048 then some "alb delete failed" else none }

/-- The artifact bucket creation fails. -/
def envS3Fail : Env := { env0 with createS3Res := some "createS3 failed" }

/-- The VPC and bucket deletions fail. -/
def envTwoFail : Env :=
  { env0 with
      deleteVPCRes := some "vpc fail", deleteS3Res := some "s3 fail" }

/-- The Stop Signal has fired. -/
def envStop : Env := { env0 with stopFired := true }

/-! ## Projection lemmas for the teardown blocks -/

lemma delBlock_evs (g c : AddOnId) (slp : Option Nat) (env : Env) (st : St) :
    (delBlock g c slp env st).evs =
      st.evs ++
        (if (st.cfg.addOns g).enabled && (st.cfg.addOns g).created then
          Event.del c ::
            (if (env.deleteRes c).isNone then (slp.map Event.sleep).toList else [])
        else []) := by
  unfold delBlock
  by_cases hg : (st.cfg.addOns g).enabled && (st.cfg.addOns g).created
  · by_cases hn : (env.deleteRes c).isNone <;> simp [hg, hn]
  · simp [hg]

lemma delBlock_errs (g c : AddOnId) (slp : Option Nat) (env : Env) (st : St) :
    (delBlock g c slp env st).errs =
      st.errs ++
        (if (st.cfg.addOns g).enabled && (st.cfg.addOns g).created then
          (env.deleteRes c).toList else []) := by
  unfold delBlock
  by_cases hg : (st.cfg.addOns g).enabled && (st.cfg.addOns g).created
  · by_cases hn : (env.deleteRes c).isNone <;> simp [hg, hn]
  · simp [hg]

lemma delBlock_cfg (g c : AddOnId) (slp : Option Nat) (env : Env) (st : St) :
    (delBlock g c slp env st).cfg =
      if ((st.cfg.addOns g).enabled && (st.cfg.addOns g).created)
          && (env.deleteRes c).isNone
        then st.cfg.clearCreated c else st.cfg := by
  unfold delBlock
  by_cases hg : (st.cfg.addOns g).enabled && (st.cfg.addOns g).created
  · by_cases hn : (env.deleteRes c).isNone <;> simp [hg, hn]
  · simp [hg]

lemma ngDelBlock_evs (c : AddOnId) (env : Env) (st : St) :
    (ngDelBlock c env st).evs =
      st.evs ++
        (if (st.cfg.addOns c).enabled && env.handle c then
          [Event.del c, Event.sleep 10] else []) := by
  unfold ngDelBlock
  by_cases hg : (st.cfg.addOns c).enabled && env.handle c
  · by_cases hn : (env.deleteRes c).isNone <;> simp [hg, hn]
  · simp [hg]

lemma ngDelBlock_errs (c : AddOnId) (env : Env) (st : St) :
    (ngDelBlock c env st).errs =
      st.errs ++
        (if (st.cfg.addOns c).enabled && env.handle c then
          (env.deleteRes c).toList else []) := by
  unfold ngDelBlock
  by_cases hg : (st.cfg.addOns c).enabled && env.handle c
  · by_cases hn : (env.deleteRes c).isNone <;> simp [hg, hn]
  · simp [hg]

lemma ngDelBlock_cfg (c : AddOnId) (env : Env) (st : St) :
    (ngDelBlock c env st).cfg =
      if ((st.cfg.addOns c).enabled && env.handle c) && (env.deleteRes c).isNone
        then st.cfg.clearCreated c else st.cfg := by
  unfold ngDelBlock
  by_cases hg : (st.cfg.addOns c).enabled && env.handle c
  · by_cases hn : (env.deleteRes c).isNone <;> simp [hg, hn]
  · simp [hg]

lemma clearCreated_addOns (cfg : Config) (c a : AddOnId) :
    (cfg.clearCreated c).addOns a =
      if a = c then { cfg.addOns a with created := false } else cfg.addOns a := rfl

lemma clearCreated_vpcCreate (cfg : Config) (c : AddOnId) :
    (cfg.clearCreated c).vpcCreate = cfg.vpcCreate := rfl

lemma addOns_ite (c : Prop) [Decidable c] (f g : Config) (a : AddOnId) :
    (if c then f else g).addOns a = if c then f.addOns a else g.addOns a :=
  apply_ite (fun x : Config => x.addOns a) c f g

lemma vpcCreate_ite (c : Prop) [Decidable c] (f g : Config) :
    (if c then f else g).vpcCreate = if c then f.vpcCreate else g.vpcCreate :=
  apply_ite (fun x : Config => x.vpcCreate) c f g

lemma clearCreated_ite (c : Prop) [Decidable c] (f g : Config) (x : AddOnId) :
    (if c then f else g).clearCreated x =
      if c then f.clearCreated x else g.clearCreated x :=
  apply_ite (fun y : Config => y.clearCreated x) c f g

lemma enabled_ite (c : Prop) [Decidable c] (s t : AddOnState) :
    (if c then s else t).enabled = if c then s.enabled else t.enabled :=
  apply_ite (fun y : AddOnState => y.enabled) c s t

lemma created_ite (c : Prop) [Decidable c] (s t : AddOnState) :
    (if c then s else t).created = if c then s.created else t.created :=
  apply_ite (fun y : AddOnState => y.created) c s t

lemma St.evs_ite (c : Prop) [Decidable c] (s t : St) :
    (if c then s else t).evs = if c then s.evs else t.evs :=
  apply_ite (fun y : St => y.evs) c s t

lemma St.errs_ite (c : Prop) [Decidable c] (s t : St) :
    (if c then s else t).errs = if c then s.errs else t.errs :=
  apply_ite (fun y : St => y.errs) c s t

lemma St.cfg_ite (c : Prop) [Decidable c] (s t : St) :
    (if c then s else t).cfg = if c then s.cfg else t.cfg :=
  apply_ite (fun y : St => y.cfg) c s t

/-! ## Fold lemmas for the guarded deletion blocks -/

lemma runDel_cfg_addOns_ne (env : Env) (st : St) (x : DelSpec) (a : AddOnId)
    (h : x.c ≠ a) :
    ((runDel env st x).cfg).addOns a = st.cfg.addOns a := by
  simp [runDel, delBlock_cfg, addOns_ite, clearCreated_addOns, Ne.symm h]

lemma foldl_runDel_addOns_untouched (env : Env) (bs : List DelSpec) (st : St)
    (a : AddOnId) (h : ∀ b ∈ bs, b.c ≠ a) :
    (((bs.foldl (runDel env) st)).cfg).addOns a = st.cfg.addOns a := by
  induction bs generalizing st with
  | nil => rfl
  | cons x rest ih =>
    rw [List.foldl_cons, ih _ (fun b hb => h b (List.mem_cons_of_mem x hb))]
    exact runDel_cfg_addOns_ne env st x a (h x (List.mem_cons_self x rest))

lemma blockEvs_congr (cfg₁ cfg₂ : Config) (env : Env) (b : DelSpec)
    (h : cfg₁.addOns b.g = cfg₂.addOns b.g) :
    blockEvs cfg₁ env b = blockEvs cfg₂ env b := by
  simp [blockEvs, h]

lemma blockErrs_congr (cfg₁ cfg₂ : Config) (env : Env) (b : DelSpec)
    (h : cfg₁.addOns b.g = cfg₂.addOns b.g) :
    blockErrs cfg₁ env b = blockErrs cfg₂ env b := by
  simp [blockErrs, h]

lemma runDel_evs (env : Env) (st : St) (x : DelSpec) :
    (runDel env st x).evs = st.evs ++ blockEvs st.cfg env x := by
  simp [runDel, delBlock_evs, blockEvs]

lemma runDel_errs (env : Env) (st : St) (x : DelSpec) :
    (runDel env st x).errs = st.errs ++ blockErrs st.cfg env x := by
  simp [runDel, delBlock_errs, blockErrs]

lemma foldl_runDel_evs (env : Env) (bs : List DelSpec) (st : St)
    (h : bs.Pairwise (fun x y => x.c ≠ y.g)) :
    (bs.foldl (runDel env) st).evs =
      st.evs ++ (bs.map (blockEvs st.cfg env)).flatten := by
  induction bs generalizing st with
  | nil => simp
  | cons x rest ih =>
    obtain ⟨hx, hrest⟩ := List.pairwise_cons.mp h
    rw [List.foldl_cons, ih _ hrest, runDel_evs, List.map_cons,
      List.flatten_cons, List.append_assoc]
    congr 2
    exact congrArg List.flatten (List.map_congr_left
      (fun y hy => blockEvs_congr _ _ env y
        (runDel_cfg_addOns_ne env st x y.g (hx y hy))))

lemma foldl_runDel_errs (env : Env) (bs : List DelSpec) (st : St)
    (h : bs.Pairwise (fun x y => x.c ≠ y.g)) :
    (bs.foldl (runDel env) st).errs =
      st.errs ++ (bs.map (blockErrs st.cfg env)).flatten := by
  induction bs generalizing st with
  | nil => simp
  | cons x rest ih =>
    obtain ⟨hx, hrest⟩ := List.pairwise_cons.mp h
    rw [List.foldl_cons, ih _ hrest, runDel_errs, List.map_cons,
      List.flatten_cons, List.append_assoc]
    congr 2
    exact congrArg List.flatten (List.map_congr_left
      (fun y hy => blockErrs_congr _ _ env y
        (runDel_cfg_addOns_ne env st x y.g (hx y hy))))

lemma downDelSpecs_pairwise :
    downDelSpecs.Pairwise (fun x y => x.c ≠ y.g) := by decide

lemma runDel_vpcCreate (env : Env) (st : St) (x : DelSpec) :
    ((runDel env st x).cfg).vpcCreate = st.cfg.vpcCreate := by
  simp [runDel, delBlock_cfg, vpcCreate_ite, clearCreated_vpcCreate]

lemma foldl_runDel_vpcCreate (env : Env) (bs : List DelSpec) (st : St) :
    ((bs.foldl (runDel env) st).cfg).vpcCreate = st.cfg.vpcCreate := by
  induction bs generalizing st with
  | nil => rfl
  | cons x rest ih => rw [List.foldl_cons, ih, runDel_vpcCreate]

lemma foldl_runDel_addOns_split (env : Env) (l₁ l₂ : List DelSpec)
    (b : DelSpec) (st : St) (a : AddOnId)
    (h1 : ∀ x ∈ l₁, x.c ≠ a) (h2 : ∀ x ∈ l₂, x.c ≠ a)
    (hbc : b.c = a) (hbg : b.g = a) :
    (((l₁ ++ b :: l₂).foldl (runDel env) st).cfg).addOns a =
      if ((st.cfg.addOns a).enabled && (st.cfg.addOns a).created)
          && (env.deleteRes a).isNone
      then { st.cfg.addOns a with created := false }
      else st.cfg.addOns a := by
  rw [List.foldl_append, List.foldl_cons,
    foldl_runDel_addOns_untouched _ _ _ _ h2]
  rw [runDel, delBlock_cfg, hbc, hbg, addOns_ite]
  rw [foldl_runDel_addOns_untouched _ _ _ _ h1]
  by_cases hc : ((st.cfg.addOns a).enabled && (st.cfg.addOns a).created)
      && (env.deleteRes a).isNone
  · simp only [hc, if_true, clearCreated_addOns, if_pos rfl]
    rw [foldl_runDel_addOns_untouched _ _ _ _ h1]
  · simp [hc]

lemma downDelSpecs_split_alb :
    downDelSpecs = downDelSpecs.take 19
      ++ (⟨.alb2048, .alb2048, some 60⟩ : DelSpec) :: downDelSpecs.drop 20 := rfl

lemma downDelSpecs_split_nlb :
    downDelSpecs = downDelSpecs.take 20
      ++ (⟨.nlbHelloWorld, .nlbHelloWorld, some 60⟩ : DelSpec) :: downDelSpecs.drop 21 := rfl

set_option maxHeartbeats 1000000 in
/-- The teardown trace, phase for phase over the initial config. -/
lemma downTrace_eq (cfg : Config) (env : Env) :
    downTrace cfg env = downTraceSpec cfg env := by
  have hpair := downDelSpecs_pairwise
  unfold downTrace down
  simp only []
  generalize hst2 : downDelSpecs.foldl (runDel env)
    (infraStep Event.keyPairDel env.deleteKeyPairRes ⟨cfg, [], []⟩) = st2
  have hevs : st2.evs =
      Event.keyPairDel :: (downDelSpecs.map (blockEvs cfg env)).flatten := by
    rw [← hst2, foldl_runDel_evs _ _ _ hpair]; simp [infraStep]
  have hng : st2.cfg.addOns .nodeGroups = cfg.addOns .nodeGroups := by
    rw [← hst2, foldl_runDel_addOns_untouched _ _ _ _ (by decide)]
    rfl
  have hmng : st2.cfg.addOns .managedNodeGroups = cfg.addOns .managedNodeGroups := by
    rw [← hst2, foldl_runDel_addOns_untouched _ _ _ _ (by decide)]
    rfl
  have halb : st2.cfg.addOns .alb2048 =
      if ((cfg.addOns .alb2048).enabled && (cfg.addOns .alb2048).created)
          && (env.deleteRes .alb2048).isNone
      then { cfg.addOns .alb2048 with created := false }
      else cfg.addOns .alb2048 := by
    rw [← hst2, downDelSpecs_split_alb,
      foldl_runDel_addOns_split env _ _ _ _ _ (by decide) (by decide) rfl rfl]
    rfl
  have hnlb : st2.cfg.addOns .nlbHelloWorld =
      if ((cfg.addOns .nlbHelloWorld).enabled && (cfg.addOns .nlbHelloWorld).created)
          && (env.deleteRes .nlbHelloWorld).isNone
      then { cfg.addOns .nlbHelloWorld with created := false }
      else cfg.addOns .nlbHelloWorld := by
    rw [← hst2, downDelSpecs_split_nlb,
      foldl_runDel_addOns_split env _ _ _ _ _ (by decide) (by decide) rfl rfl]
    rfl
  have hvpc : st2.cfg.vpcCreate = cfg.vpcCreate := by
    rw [← hst2, foldl_runDel_vpcCreate]
    rfl
  rcases Bool.eq_false_or_eq_true cfg.vpcCreate with hv | hv <;>
  simp [infraStep, ngDelBlock_evs, ngDelBlock_cfg, St.evs_ite, St.cfg_ite,
    addOns_ite, clearCreated_addOns, enabled_ite, created_ite, vpcCreate_ite,
    clearCreated_vpcCreate, hevs, hng, hmng, halb, hnlb, hvpc, hv,
    downTraceSpec, downLBSettle, createdAfterDel, List.append_assoc] <;>
  (split <;> simp [List.append_assoc])

set_option maxHeartbeats 1000000 in
/-- The teardown aggregate error list, phase for phase over the initial
config. -/
lemma downErrs_eq (cfg : Config) (env : Env) :
    downErrs cfg env = downErrsSpec cfg env := by
  have hpair := downDelSpecs_pairwise
  unfold downErrs down
  simp only []
  generalize hst2 : downDelSpecs.foldl (runDel env)
    (infraStep Event.keyPairDel env.deleteKeyPairRes ⟨cfg, [], []⟩) = st2
  have herrs : st2.errs =
      env.deleteKeyPairRes.toList ++ (downDelSpecs.map (blockErrs cfg env)).flatten := by
    rw [← hst2, foldl_runDel_errs _ _ _ hpair]; simp [infraStep]
  have hng : st2.cfg.addOns .nodeGroups = cfg.addOns .nodeGroups := by
    rw [← hst2, foldl_runDel_addOns_untouched _ _ _ _ (by decide)]
    rfl
  have hmng : st2.cfg.addOns .managedNodeGroups = cfg.addOns .managedNodeGroups := by
    rw [← hst2, foldl_runDel_addOns_untouched _ _ _ _ (by decide)]
    rfl
  simp [infraStep, ngDelBlock_errs, ngDelBlock_cfg, St.errs_ite, St.cfg_ite,
    addOns_ite, clearCreated_addOns, enabled_ite, created_ite, vpcCreate_ite,
    clearCreated_vpcCreate, herrs, hng, hmng,
    downErrsSpec, List.append_assoc]

/-- `down` returns success exactly when the aggregate error list is empty,
and otherwise the join of that list. -/
lemma downRes_eq (cfg : Config) (env : Env) :
    downRes cfg env =
      if downErrs cfg env = [] then none
      else some (String.intercalate ", " (downErrs cfg env)) := by
  unfold downRes downErrs down
  simp only []
  rcases h : (downDelSpecs.foldl (runDel env)
    (infraStep Event.keyPairDel env.deleteKeyPairRes ⟨cfg, [], []⟩)) with _
  simp [infraStep, ngDelBlock_errs, St.errs_ite, List.isEmpty_iff]

lemma filter_ite {α : Type} (p : α → Bool) (c : Prop) [Decidable c]
    (l₁ l₂ : List α) :
    (if c then l₁ else l₂).filter p = if c then l₁.filter p else l₂.filter p := by
  by_cases h : c <;> simp [h]

lemma mem_ite_list {α : Type} (e : α) (c : Prop) [Decidable c] (l₁ l₂ : List α) :
    (e ∈ if c then l₁ else l₂) ↔ (c ∧ e ∈ l₁) ∨ (¬ c ∧ e ∈ l₂) := by
  by_cases h : c <;> simp [h]

set_option maxHeartbeats 1000000 in
/-- Which fixed infrastructure deletions `down` performs, and in which
order: all six, unconditionally. -/
lemma downTrace_filter_infra (cfg : Config) (env : Env) :
    (downTrace cfg env).filter isInfraDel =
      [Event.keyPairDel, Event.clusterDel, Event.encryptionDel,
       Event.roleDel, Event.vpcDel, Event.s3Del] := by
  rw [downTrace_eq]
  simp [downTraceSpec, downLBSettle, downDelSpecs, blockEvs, filter_ite,
    List.filter_append, List.filter, isInfraDel]

set_option maxHeartbeats 1000000 in
/-- The 30 second pre-VPC settle sleep happens exactly when the VPC was
created by this tool. -/
lemma sleep30_mem_downTrace_iff (cfg : Config) (env : Env) :
    (Event.sleep 30 ∈ downTrace cfg env) ↔ cfg.vpcCreate = true := by
  rw [downTrace_eq]
  simp [downTraceSpec, downLBSettle, downDelSpecs, blockEvs, mem_ite_list]

set_option maxHeartbeats 4000000 in
/-- Which add-on `Delete` calls a single `down` run performs. -/
lemma mem_del_downTrace_iff (cfg : Config) (env : Env) (a : AddOnId) :
    (Event.del a ∈ downTrace cfg env) ↔ deleteInvokedSpec cfg env a = true := by
  rw [downTrace_eq]
  cases a <;>
  simp [downTraceSpec, downLBSettle, downDelSpecs, blockEvs, deleteInvokedSpec,
    mem_ite_list]

lemma filterMap_cons_toList {α β : Type} (f : α → Option β) (a : α)
    (l : List α) :
    (a :: l).filterMap f = (f a).toList ++ l.filterMap f := by
  cases h : f a <;> simp [List.filterMap_cons, h]

lemma filterMap_ite {α β : Type} (f : α → Option β) (c : Prop) [Decidable c]
    (l₁ l₂ : List α) :
    (if c then l₁ else l₂).filterMap f =
      if c then l₁.filterMap f else l₂.filterMap f := by
  by_cases h : c <;> simp [h]

lemma filterMap_attempt_blocks (cfg : Config) (env : Env) (bs : List DelSpec) :
    ((bs.map (fun b =>
        if (cfg.addOns b.g).enabled && (cfg.addOns b.g).created
        then [DownStep.addOnBlock b.g b.c] else [])).flatten).filterMap
          (stepOutcome env) =
      (bs.map (blockErrs cfg env)).flatten := by
  induction bs with
  | nil => rfl
  | cons x rest ih =>
    simp only [List.map_cons, List.flatten_cons, List.filterMap_append, ih,
      blockErrs, filterMap_ite]
    rw [filterMap_cons_toList]
    simp [stepOutcome]

/-- The aggregate error list of `down` is exactly the list of failures of the
attempted steps, in order. -/
lemma downErrs_eq_attempts (cfg : Config) (env : Env) :
    downErrs cfg env =
      (downAttempts cfg env.handle).filterMap (stepOutcome env) := by
  rw [downErrs_eq]
  unfold downErrsSpec downAttempts
  simp only [List.filterMap_append, filterMap_attempt_blocks, filterMap_ite]
  rw [filterMap_cons_toList]
  simp [stepOutcome, filterMap_cons_toList, List.append_assoc]

/-! ## Preservation of the per-add-on flags across `down` -/

lemma clearCreated_enabled (cfg : Config) (c a : AddOnId) :
    ((cfg.clearCreated c).addOns a).enabled = (cfg.addOns a).enabled := by
  rw [clearCreated_addOns]
  split <;> rfl

lemma runDel_enabled (env : Env) (st : St) (x : DelSpec) (a : AddOnId) :
    (((runDel env st x).cfg).addOns a).enabled = (st.cfg.addOns a).enabled := by
  simp [runDel, delBlock_cfg, addOns_ite, enabled_ite, clearCreated_enabled]

lemma foldl_runDel_enabled (env : Env) (bs : List DelSpec) (st : St)
    (a : AddOnId) :
    (((bs.foldl (runDel env) st).cfg).addOns a).enabled =
      (st.cfg.addOns a).enabled := by
  induction bs generalizing st with
  | nil => rfl
  | cons x rest ih => rw [List.foldl_cons, ih, runDel_enabled]

lemma runDel_created_false (env : Env) (st : St) (x : DelSpec) (a : AddOnId)
    (h : (st.cfg.addOns a).created = false) :
    (((runDel env st x).cfg).addOns a).created = false := by
  simp [runDel, delBlock_cfg, addOns_ite, created_ite, clearCreated_addOns, h]

lemma foldl_runDel_created_false (env : Env) (bs : List DelSpec) (st : St)
    (a : AddOnId) (h : (st.cfg.addOns a).created = false) :
    (((bs.foldl (runDel env) st).cfg).addOns a).created = false := by
  induction bs generalizing st with
  | nil => exact h
  | cons x rest ih => rw [List.foldl_cons]; exact ih _ (runDel_created_false env st x a h)

lemma foldl_runDel_self_clears (env : Env) (bs : List DelSpec) (st : St)
    (a : AddOnId) (hok : env.deleteRes a = none)
    (hb : ∃ b ∈ bs, b.g = a ∧ b.c = a)
    (hen : (st.cfg.addOns a).enabled = true) :
    (((bs.foldl (runDel env) st).cfg).addOns a).created = false := by
  induction bs generalizing st with
  | nil => simp at hb
  | cons x rest ih =>
    rcases hb with ⟨b, hbmem, hbg, hbc⟩
    rw [List.foldl_cons]
    rcases List.mem_cons.mp hbmem with rfl | hbrest
    · refine foldl_runDel_created_false env rest _ a ?_
      rw [runDel, delBlock_cfg, hbg, hbc, addOns_ite, clearCreated_addOns]
      by_cases hcr : (st.cfg.addOns a).created = true
      · simp [hen, hcr, hok]
      · simp only [Bool.not_eq_true] at hcr
        simp [hen, hcr]
    · exact ih _ ⟨b, hbrest, hbg, hbc⟩ (by rw [runDel_enabled]; exact hen)

/-- `down` never changes an add-on's `Enable` flag. -/
lemma downCfg_enabled (cfg : Config) (env : Env) (a : AddOnId) :
    ((downCfg cfg env).addOns a).enabled = (cfg.addOns a).enabled := by
  unfold downCfg down
  simp only []
  generalize hst2 : downDelSpecs.foldl (runDel env)
    (infraStep Event.keyPairDel env.deleteKeyPairRes ⟨cfg, [], []⟩) = st2
  have h2 : (st2.cfg.addOns a).enabled = (cfg.addOns a).enabled := by
    rw [← hst2, foldl_runDel_enabled]; rfl
  simp [infraStep, St.cfg_ite, ngDelBlock_cfg, addOns_ite, enabled_ite,
    clearCreated_enabled, h2]

/-- After `down` in an environment where add-on `a`'s delete succeeds, the
`Created` flag of any add-on with its own guarded block is false (provided it
was enabled, so that a set flag would have caused the block to run). -/
lemma downCfg_created_false (cfg : Config) (env : Env) (a : AddOnId)
    (hok : env.deleteRes a = none)
    (hb : ∃ b ∈ downDelSpecs, b.g = a ∧ b.c = a)
    (hen : (cfg.addOns a).enabled = true) :
    ((downCfg cfg env).addOns a).created = false := by
  unfold downCfg down
  simp only []
  generalize hst2 : downDelSpecs.foldl (runDel env)
    (infraStep Event.keyPairDel env.deleteKeyPairRes ⟨cfg, [], []⟩) = st2
  have h2 : (st2.cfg.addOns a).created = false := by
    rw [← hst2]
    exact foldl_runDel_self_clears env _ _ a hok hb hen
  simp [infraStep, St.cfg_ite, ngDelBlock_cfg, addOns_ite, created_ite,
    clearCreated_addOns, h2]

/-! ## Lemmas about the Up chain -/

lemma stepSeq_evs (p q : UpRes) :
    (stepSeq p q).1 = p.1 ++ (if p.2.isSome then [] else q.1) := by
  unfold stepSeq
  split <;> simp

lemma stepSeq_res (p q : UpRes) :
    (stepSeq p q).2 = if p.2.isSome then p.2 else q.2 := by
  unfold stepSeq
  split <;> simp

lemma stepSeq_res_none (p q : UpRes) :
    (stepSeq p q).2 = none ↔ p.2 = none ∧ q.2 = none := by
  rcases hp : p.2 with _ | e <;> simp [stepSeq, hp]

lemma upRes_none_iff (cfg : Config) (env : Env) :
    upRes cfg env = none ↔ (upBody cfg env).2 = none := by
  unfold upRes Up
  rcases h : (upBody cfg env).2 with _ | e <;> simp [h]
  split <;> simp

lemma fst_ite {α β : Type} (c : Prop) [Decidable c] (p q : α × β) :
    (if c then p else q).1 = if c then p.1 else q.1 :=
  apply_ite Prod.fst c p q

lemma snd_ite {α β : Type} (c : Prop) [Decidable c] (p q : α × β) :
    (if c then p else q).2 = if c then p.2 else q.2 :=
  apply_ite Prod.snd c p q

lemma upRes_of_body_some (cfg : Config) (env : Env) (e : String)
    (h : (upBody cfg env).2 = some e) : upRes cfg env = some e := by
  unfold upRes Up
  simp only [h]
  split <;> rfl

lemma downInvoked_not_mem_downTrace (cfg : Config) (env : Env) :
    Event.downInvoked ∉ downTrace cfg env := by
  rw [downTrace_eq]
  simp [downTraceSpec, downLBSettle, downDelSpecs, blockEvs, mem_ite_list]

set_option maxHeartbeats 1000000 in
lemma downInvoked_not_mem_upBody (cfg : Config) (env : Env) :
    Event.downInvoked ∉ (upBody cfg env).1 := by
  simp [upBody, stepSeq_evs, createBlock, gpuBlock, hookBlock, fetchLogsBlock,
    aggBlock, aggregateSection, mem_ite_list, fst_ite, snd_ite]

lemma createBlock_res_none (a : AddOnId) (cfg : Config) (env : Env)
    (h : (createBlock a cfg env).2 = none)
    (ha : (cfg.addOns a).enabled = true) : env.handle a = true := by
  by_cases hh : env.handle a
  · exact hh
  · simp [createBlock, ha, hh] at h

lemma not_sleepBetween (a b : Event) (tr : List Event)
    (h : ∀ e ∈ tr, Event.isSleep e = false) : ¬ SleepBetween a b tr := by
  rintro ⟨l₁, l₂, l₃, heq, hany⟩
  rw [List.any_eq_true] at hany
  obtain ⟨e, he, hse⟩ := hany
  have hmem : e ∈ tr := by
    rw [heq]
    simp [he]
  rw [h e hmem] at hse
  cases hse

set_option maxHeartbeats 1000000 in
/-- A settle delay separates the ALB deletion from the VPC deletion whenever
the ALB delete succeeded (1 min sleep), a node-group add-on is enabled
(2 min LB settle), or the VPC is tool-created (30 s pre-VPC sleep). -/
lemma sleepBetween_alb (cfg : Config) (env : Env)
    (hen : (cfg.addOns .alb2048).enabled = true)
    (hcr : (cfg.addOns .alb2048).created = true)
    (hcase : env.deleteRes .alb2048 = none
      ∨ (cfg.addOns .nodeGroups).enabled = true
      ∨ (cfg.addOns .managedNodeGroups).enabled = true
      ∨ cfg.vpcCreate = true) :
    SleepBetween (Event.del .alb2048) Event.vpcDel (downTrace cfg env) := by
  rw [downTrace_eq]
  refine ⟨Event.keyPairDel :: ((downDelSpecs.take 19).map (blockEvs cfg env)).flatten,
    (if (env.deleteRes .alb2048).isNone then [Event.sleep 60] else [])
      ++ ((downDelSpecs.drop 20).map (blockEvs cfg env)).flatten
      ++ downLBSettle cfg env
      ++ (if (cfg.addOns .managedNodeGroups).enabled && env.handle .managedNodeGroups
          then [Event.del .managedNodeGroups, Event.sleep 10] else [])
      ++ (if (cfg.addOns .nodeGroups).enabled && env.handle .nodeGroups
          then [Event.del .nodeGroups, Event.sleep 10] else [])
      ++ [Event.clusterDel, Event.encryptionDel, Event.roleDel]
      ++ (if cfg.vpcCreate then [Event.sleep 30] else []),
    [Event.s3Del], ?_, ?_⟩
  · unfold downTraceSpec
    conv_lhs => rw [downDelSpecs_split_alb]
    simp [List.map_append, List.flatten_append, blockEvs, hen, hcr,
      List.append_assoc]
  · rcases hcase with hok | hng | hmng | hvpc
    · simp [hok, Event.isSleep]
    · by_cases hok : (env.deleteRes .alb2048).isNone
      · simp [hok, Event.isSleep]
      · simp [List.any_append, downLBSettle, createdAfterDel, hen, hcr, hng, hok,
          Event.isSleep]
    · by_cases hok : (env.deleteRes .alb2048).isNone
      · simp [hok, Event.isSleep]
      · simp [List.any_append, downLBSettle, createdAfterDel, hen, hcr, hmng, hok,
          Event.isSleep]
    · simp [List.any_append, hvpc, Event.isSleep]

set_option maxHeartbeats 1000000 in
/-- The NLB analogue of `sleepBetween_alb`. -/
lemma sleepBetween_nlb (cfg : Config) (env : Env)
    (hen : (cfg.addOns .nlbHelloWorld).enabled = true)
    (hcr : (cfg.addOns .nlbHelloWorld).created = true)
    (hcase : env.deleteRes .nlbHelloWorld = none
      ∨ (cfg.addOns .nodeGroups).enabled = true
      ∨ (cfg.addOns .managedNodeGroups).enabled = true
      ∨ cfg.vpcCreate = true) :
    SleepBetween (Event.del .nlbHelloWorld) Event.vpcDel (downTrace cfg env) := by
  rw [downTrace_eq]
  refine ⟨Event.keyPairDel :: ((downDelSpecs.take 20).map (blockEvs cfg env)).flatten,
    (if (env.deleteRes .nlbHelloWorld).isNone then [Event.sleep 60] else [])
      ++ ((downDelSpecs.drop 21).map (blockEvs cfg env)).flatten
      ++ downLBSettle cfg env
      ++ (if (cfg.addOns .managedNodeGroups).enabled && env.handle .managedNodeGroups
          then [Event.del .managedNodeGroups, Event.sleep 10] else [])
      ++ (if (cfg.addOns .nodeGroups).enabled && env.handle .nodeGroups
          then [Event.del .nodeGroups, Event.sleep 10] else [])
      ++ [Event.clusterDel, Event.encryptionDel, Event.roleDel]
      ++ (if cfg.vpcCreate then [Event.sleep 30] else []),
    [Event.s3Del], ?_, ?_⟩
  · unfold downTraceSpec
    conv_lhs => rw [downDelSpecs_split_nlb]
    simp [List.map_append, List.flatten_append, blockEvs, hen, hcr,
      List.append_assoc]
  · rcases hcase with hok | hng | hmng | hvpc
    · simp [hok, Event.isSleep]
    · by_cases hok : (env.deleteRes .nlbHelloWorld).isNone
      · simp [hok, Event.isSleep]
      · simp [List.any_append, downLBSettle, createdAfterDel, hen, hcr, hng, hok,
          Event.isSleep]
    · by_cases hok : (env.deleteRes .nlbHelloWorld).isNone
      · simp [hok, Event.isSleep]
      · simp [List.any_append, downLBSettle, createdAfterDel, hen, hcr, hmng, hok,
          Event.isSleep]
    · simp [List.any_append, hvpc, Event.isSleep]

/-! ## Claim theorems -/

set_option maxRecDepth 8000 in
/-- C1 (counterexample): the claim "Delete is invoked iff the add-on's
Created flag is true" is false on the code: with the managed-node-group
add-on enabled, never created, and its handle materialized, `down` invokes
its Delete anyway. -/
theorem c1_counterexample :
    (cfgC1.addOns .managedNodeGroups).created = false
      ∧ Event.del .managedNodeGroups ∈ downTrace cfgC1 env0 :=
  ⟨by decide, by decide⟩

/-- C1 (amended): during a single `down`, an add-on tester's `Delete` is
invoked iff `deleteInvokedSpec` holds: for the `Created`-guarded blocks, iff
`Enabled && Created`; for the node-group add-ons, iff `Enabled` and the
handle is non-nil, regardless of `Created`; `clusterLoaderRemote` is also
invoked through the mistargeted `clusterLoaderLocal` block; and
`clusterLoaderLocal`, `csrsLocal` and `configMapsRemote` are never
deleted. -/
theorem c1_amended_delete_iff (cfg : Config) (env : Env) (a : AddOnId) :
    (Event.del a ∈ downTrace cfg env) ↔ deleteInvokedSpec cfg env a = true :=
  mem_del_downTrace_iff cfg env a

/-- C2: `down` never returns early — the attempted steps are determined by
the config flags and handles alone, each failing attempted step's message is
in the aggregate error list (which is exactly the ordered list of those
failures), and the returned error is the join of that list (success when it
is empty). -/
theorem c2_down_aggregates_all_failures (cfg : Config) (env : Env) :
    downErrs cfg env = (downAttempts cfg env.handle).filterMap (stepOutcome env)
      ∧ downRes cfg env = (if downErrs cfg env = [] then none
          else some (String.intercalate ", " (downErrs cfg env)))
      ∧ (∀ m : String,
          (∃ s ∈ downAttempts cfg env.handle, stepOutcome env s = some m) →
          m ∈ downErrs cfg env) := by
  refine ⟨downErrs_eq_attempts cfg env, downRes_eq cfg env, ?_⟩
  intro m hm
  rw [downErrs_eq_attempts]
  obtain ⟨s, hs, ho⟩ := hm
  exact List.mem_filterMap.mpr ⟨s, hs, ho⟩

set_option maxRecDepth 8000 in
/-- C2 (witness): with the VPC and bucket deletions failing, both messages
reach the aggregate error list. -/
theorem c2_witness :
    "vpc fail" ∈ downErrs cfg0 envTwoFail
      ∧ "s3 fail" ∈ downErrs cfg0 envTwoFail :=
  ⟨(c2_down_aggregates_all_failures cfg0 envTwoFail).2.2 "vpc fail" (by decide),
   (c2_down_aggregates_all_failures cfg0 envTwoFail).2.2 "s3 fail" (by decide)⟩

/-- C3: when the Up body fails with error `e` and failure compensation is
enabled, `down` is invoked exactly once and the caller still receives exactly
`e`, whatever the compensation's own outcome. -/
theorem c3_up_failure_compensation (cfg : Config) (env : Env) (e : String)
    (hb : (upBody cfg env).2 = some e) (hofd : cfg.onFailureDelete = true) :
    upRes cfg env = some e
      ∧ (upTrace cfg env).count Event.downInvoked = 1 := by
  refine ⟨upRes_of_body_some cfg env e hb, ?_⟩
  unfold upTrace Up
  simp only [hb, hofd, if_true]
  simp [List.count_append,
    List.count_eq_zero_of_not_mem (downInvoked_not_mem_upBody cfg env),
    List.count_eq_zero_of_not_mem (downInvoked_not_mem_downTrace cfg env),
    List.count_cons]
  split <;> simp

set_option maxRecDepth 8000 in
/-- C3 (witness): compensation after a failed bucket creation. -/
theorem c3_witness :
    upRes cfgOFD envS3Fail = some "createS3 failed"
      ∧ (upTrace cfgOFD envS3Fail).count Event.downInvoked = 1 :=
  c3_up_failure_compensation cfgOFD envS3Fail "createS3 failed"
    (by decide) (by decide)

/-- C4: the six prerequisite steps of Up run in their fixed order; if the
steps before `k` succeed and step `k` fails with `e`, Up returns exactly `e`
and the body's trace is exactly the first `k + 1` prerequisite invocations —
no later prerequisite, node-group, GPU or add-on step is invoked. -/
theorem c4_up_prereq_order_abort (cfg : Config) (env : Env) (k : Nat)
    (e : String) (hk : k < 6)
    (hprev : ∀ j, j < k → upPrereqRes env j = none)
    (hfail : upPrereqRes env k = some e) :
    upRes cfg env = some e
      ∧ (upBody cfg env).1 = prereqEvents.take (k + 1) := by
  interval_cases k
  · simp only [upPrereqRes] at hfail
    exact ⟨upRes_of_body_some _ _ _ (by simp [upBody, stepSeq_res, hfail]),
      by simp [upBody, stepSeq_evs, stepSeq_res, hfail, prereqEvents]⟩
  · have h0 := hprev 0 (by norm_num)
    simp only [upPrereqRes] at hfail h0
    exact ⟨upRes_of_body_some _ _ _ (by simp [upBody, stepSeq_res, hfail, h0]),
      by simp [upBody, stepSeq_evs, stepSeq_res, hfail, h0, prereqEvents]⟩
  · have h0 := hprev 0 (by norm_num)
    have h1 := hprev 1 (by norm_num)
    simp only [upPrereqRes] at hfail h0 h1
    exact ⟨upRes_of_body_some _ _ _ (by simp [upBody, stepSeq_res, hfail, h0, h1]),
      by simp [upBody, stepSeq_evs, stepSeq_res, hfail, h0, h1, prereqEvents]⟩
  · have h0 := hprev 0 (by norm_num)
    have h1 := hprev 1 (by norm_num)
    have h2 := hprev 2 (by norm_num)
    simp only [upPrereqRes] at hfail h0 h1 h2
    exact ⟨upRes_of_body_some _ _ _
        (by simp [upBody, stepSeq_res, hfail, h0, h1, h2]),
      by simp [upBody, stepSeq_evs, stepSeq_res, hfail, h0, h1, h2, prereqEvents]⟩
  · have h0 := hprev 0 (by norm_num)
    have h1 := hprev 1 (by norm_num)
    have h2 := hprev 2 (by norm_num)
    have h3 := hprev 3 (by norm_num)
    simp only [upPrereqRes] at hfail h0 h1 h2 h3
    exact ⟨upRes_of_body_some _ _ _
        (by simp [upBody, stepSeq_res, hfail, h0, h1, h2, h3]),
      by simp [upBody, stepSeq_evs, stepSeq_res, hfail, h0, h1, h2, h3,
        prereqEvents]⟩
  · have h0 := hprev 0 (by norm_num)
    have h1 := hprev 1 (by norm_num)
    have h2 := hprev 2 (by norm_num)
    have h3 := hprev 3 (by norm_num)
    have h4 := hprev 4 (by norm_num)
    simp only [upPrereqRes] at hfail h0 h1 h2 h3 h4
    exact ⟨upRes_of_body_some _ _ _
        (by simp [upBody, stepSeq_res, hfail, h0, h1, h2, h3, h4]),
      by simp [upBody, stepSeq_evs, stepSeq_res, hfail, h0, h1, h2, h3, h4,
        prereqEvents]⟩

set_option maxRecDepth 8000 in
/-- C4 (witness): a failed bucket creation aborts Up after exactly that
step. -/
theorem c4_witness :
    upRes cfg0 envS3Fail = some "createS3 failed"
      ∧ (upBody cfg0 envS3Fail).1 = prereqEvents.take 1 :=
  c4_up_prereq_order_abort cfg0 envS3Fail 0 "createS3 failed" (by norm_num)
    (fun j hj => absurd hj (by omega)) (by decide)

set_option maxRecDepth 8000 in
/-- C5 (counterexample): the claim "a second Down performs zero additional
destructive calls" is false on the code: after a fully successful `down`
with the managed-node-group add-on enabled, a second `down` still invokes
the managed-node-group tester's Delete, because that block ignores the
`Created` flag. -/
theorem c5_counterexample :
    downRes cfgC5 env0 = none
      ∧ Event.del .managedNodeGroups ∈ downTrace (downCfg cfgC5 env0) env0 :=
  ⟨by decide, by decide⟩

/-- C5 (amended): after one `down` in which every add-on deletion succeeded,
a second `down` (with no intervening Up) performs no `Created`-guarded
deletion for any add-on with its own guarded block; only the node-group
deletions, the `clusterLoaderLocal` block's mistargeted remote-loader
deletion, and the fixed infrastructure deletions are re-attempted. -/
theorem c5_amended_idempotent (cfg : Config) (env₁ env₂ : Env)
    (hok : ∀ x, env₁.deleteRes x = none) (a : AddOnId)
    (ha : a ∈ guardedSelfDelIds) :
    Event.del a ∉ downTrace (downCfg cfg env₁) env₂ := by
  rw [mem_del_downTrace_iff]
  fin_cases ha <;>
  · intro hcontra
    simp only [deleteInvokedSpec, Bool.and_eq_true] at hcontra
    obtain ⟨hen2, hcr2⟩ := hcontra
    rw [downCfg_enabled] at hen2
    have hfalse := downCfg_created_false cfg env₁ _ (hok _) (by decide) hen2
    rw [hfalse] at hcr2
    cases hcr2

set_option maxRecDepth 8000 in
/-- C5 (witness): a created stresser add-on is not deleted again by a second
`down`. -/
theorem c5_witness :
    Event.del .stresserRemote ∉ downTrace (downCfg cfgSR env0) env0 :=
  c5_amended_idempotent cfgSR env0 env0 (fun _ => rfl) .stresserRemote
    (by decide)

/-- C6: the Stop Signal is an exactly-once transition — one fire sets it,
firing again is a no-op, it stays fired under any further fire events, and
with the signal fired the saga surfaces exactly one interrupted result at
the first phase boundary (the gated step is started, its result replaced by
the single interrupted result that aborts the saga). -/
theorem c6_stop_signal_once :
    (∀ s : StopSignal, (s.fire).fired = true)
      ∧ (∀ s : StopSignal, s.fire.fire = s.fire)
      ∧ (∀ (s : StopSignal) (l : List Unit), s.fired = true →
          (StopSignal.fireAll s l).fired = true)
      ∧ (∀ (cfg : Config) (env : Env), env.stopFired = true →
          upBody cfg env = ([Event.s3Create], some "interrupted")) := by
  refine ⟨fun _ => rfl, fun _ => rfl, ?_, ?_⟩
  · intro s l h
    induction l generalizing s with
    | nil => exact h
    | cons x rest ih => exact ih s.fire rfl
  · intro cfg env h
    simp [upBody, stepSeq, catchInterrupt, h]

/-- C6 (witness): firing twice is observably one transition; an Up under a
fired signal surfaces one interrupted result. -/
theorem c6_witness :
    (StopSignal.fireAll ⟨false⟩ [(), ()]).fired = true
      ∧ upBody cfg0 envStop = ([Event.s3Create], some "interrupted") :=
  ⟨c6_stop_signal_once.2.2.1 ⟨true⟩ [()] rfl,
   c6_stop_signal_once.2.2.2 cfg0 envStop rfl⟩

set_option maxRecDepth 8000 in
/-- C7 (counterexample): the claim "both sagas fail on an enabled add-on
with a nil handle" is false on the code: `down` with the managed-node-group
add-on enabled (and created) but its tester handle nil silently skips the
block and returns success. -/
theorem c7_counterexample :
    downRes cfgC5 envC7 = none
      ∧ Event.del .managedNodeGroups ∉ downTrace cfgC5 envC7 :=
  ⟨by decide, by decide⟩

/-- C7 (amended): in Up an enabled add-on with a nil handle is fatal — a
successful Up implies every enabled add-on had a materialized handle — while
`down` silently skips the node-group blocks when their handle is nil. -/
theorem c7_amended_nil_handle :
    (∀ (cfg : Config) (env : Env), upRes cfg env = none →
        ∀ a : AddOnId, (cfg.addOns a).enabled = true → env.handle a = true)
      ∧ (∀ (cfg : Config) (env : Env), env.handle .managedNodeGroups = false →
          Event.del .managedNodeGroups ∉ downTrace cfg env)
      ∧ (∀ (cfg : Config) (env : Env), env.handle .nodeGroups = false →
          Event.del .nodeGroups ∉ downTrace cfg env) := by
  refine ⟨?_, ?_, ?_⟩
  · intro cfg env h a ha
    rw [upRes_none_iff] at h
    simp only [upBody, stepSeq_res_none] at h
    obtain ⟨h1, h2, h3, h4, h5, h6, h7, h8, h9, h10, h11, h12, h13, h14, h15,
      h16, h17, h18, h19, h20, h21, h22, h23, h24, h25, h26, h27, h28, h29,
      h30, h31, h32, h33, h34, h35, h36, h37, h38, h39, h40, h41, h42, h43,
      h44, h45⟩ := h
    cases a
    case nodeGroups => exact createBlock_res_none _ _ _ h9 ha
    case managedNodeGroups => exact createBlock_res_none _ _ _ h10 ha
    case conformance => exact createBlock_res_none _ _ _ h12 ha
    case csiEBS => exact createBlock_res_none _ _ _ h13 ha
    case appMesh => exact createBlock_res_none _ _ _ h14 ha
    case kubernetesDashboard => exact createBlock_res_none _ _ _ h15 ha
    case prometheusGrafana => exact createBlock_res_none _ _ _ h16 ha
    case nlbHelloWorld => exact createBlock_res_none _ _ _ h18 ha
    case alb2048 => exact createBlock_res_none _ _ _ h19 ha
    case jobsPi => exact createBlock_res_none _ _ _ h20 ha
    case jobsEcho => exact createBlock_res_none _ _ _ h21 ha
    case cronJobs => exact createBlock_res_none _ _ _ h22 ha
    case csrsLocal => exact createBlock_res_none _ _ _ h23 ha
    case csrsRemote => exact createBlock_res_none _ _ _ h24 ha
    case configMapsLocal => exact createBlock_res_none _ _ _ h25 ha
    case configMapsRemote => exact createBlock_res_none _ _ _ h26 ha
    case secretsLocal => exact createBlock_res_none _ _ _ h27 ha
    case secretsRemote => exact createBlock_res_none _ _ _ h28 ha
    case fargate => exact createBlock_res_none _ _ _ h29 ha
    case irsa => exact createBlock_res_none _ _ _ h30 ha
    case irsaFargate => exact createBlock_res_none _ _ _ h31 ha
    case wordpress => exact createBlock_res_none _ _ _ h32 ha
    case jupyterHub => exact createBlock_res_none _ _ _ h33 ha
    case kubeflow => exact createBlock_res_none _ _ _ h34 ha
    case hollowNodesLocal => exact createBlock_res_none _ _ _ h35 ha
    case hollowNodesRemote => exact createBlock_res_none _ _ _ h36 ha
    case clusterLoaderLocal => exact createBlock_res_none _ _ _ h37 ha
    case clusterLoaderRemote => exact createBlock_res_none _ _ _ h38 ha
    case stresserLocal => exact createBlock_res_none _ _ _ h39 ha
    case stresserRemote => exact createBlock_res_none _ _ _ h40 ha
  · intro cfg env h
    rw [mem_del_downTrace_iff]
    simp [deleteInvokedSpec, h]
  · intro cfg env h
    rw [mem_del_downTrace_iff]
    simp [deleteInvokedSpec, h]

set_option maxRecDepth 8000 in
/-- C7 (witness): a successful Up had the enabled Fargate add-on's handle
materialized; a nil managed-node-group handle is skipped by `down`. -/
theorem c7_witness :
    env0.handle .fargate = true
      ∧ Event.del .managedNodeGroups ∉ downTrace cfgC5 envC7 :=
  ⟨c7_amended_nil_handle.1 cfgFG env0 (by decide) .fargate (by decide),
   c7_amended_nil_handle.2.1 cfgC5 envC7 (by decide)⟩

set_option maxRecDepth 8000 in
/-- C8 (counterexample): the claim "a settle delay is always observed
between a created LB add-on's deletion and the VPC deletion" is false on the
code: with the ALB add-on enabled and created but its delete failing, no
node-group add-on enabled and an imported VPC, the deletion is attempted and
no settle delay at all separates it from the VPC deletion. -/
theorem c8_counterexample :
    (cfgC8.addOns .alb2048).created = true
      ∧ Event.del .alb2048 ∈ downTrace cfgC8 envC8
      ∧ ¬ SleepBetween (Event.del .alb2048) Event.vpcDel
          (downTrace cfgC8 envC8) :=
  ⟨by decide, by decide, not_sleepBetween _ _ _ (by decide)⟩

/-- C8 (amended): for each created cloud-load-balancer add-on (ALB-2048 and
NLB hello-world), a settle delay is observed between its deletion and the
VPC deletion whenever the delete succeeded, or a node-group add-on is
enabled, or the VPC was created by this tool — but not in the remaining
case. -/
theorem c8_amended_settle_delay (cfg : Config) (env : Env) :
    ((cfg.addOns .alb2048).enabled = true →
      (cfg.addOns .alb2048).created = true →
      (env.deleteRes .alb2048 = none
        ∨ (cfg.addOns .nodeGroups).enabled = true
        ∨ (cfg.addOns .managedNodeGroups).enabled = true
        ∨ cfg.vpcCreate = true) →
      SleepBetween (Event.del .alb2048) Event.vpcDel (downTrace cfg env))
    ∧ ((cfg.addOns .nlbHelloWorld).enabled = true →
      (cfg.addOns .nlbHelloWorld).created = true →
      (env.deleteRes .nlbHelloWorld = none
        ∨ (cfg.addOns .nodeGroups).enabled = true
        ∨ (cfg.addOns .managedNodeGroups).enabled = true
        ∨ cfg.vpcCreate = true) →
      SleepBetween (Event.del .nlbHelloWorld) Event.vpcDel (downTrace cfg env)) :=
  ⟨fun h1 h2 h3 => sleepBetween_alb cfg env h1 h2 h3,
   fun h1 h2 h3 => sleepBetween_nlb cfg env h1 h2 h3⟩

set_option maxRecDepth 8000 in
/-- C8 (witness): with a successful ALB deletion the settle delay is
observed before the VPC deletion. -/
theorem c8_witness :
    SleepBetween (Event.del .alb2048) Event.vpcDel (downTrace cfgC8 env0) :=
  (c8_amended_settle_delay cfgC8 env0).1 (by decide) (by decide)
    (Or.inl (by decide))

/-- C9: `IsUp` returns `(false, nil)` without invoking the health check
whenever the config is nil, its status is nil, or `Status.Up` is false; only
with `Status.Up` true does it return `true` paired with the health check's
result (and invoke the health check). -/
theorem c9_isup (cfg : Config) (env : Env) :
    (IsUp none env = ((false, none), false))
      ∧ (cfg.status = none → IsUp (some cfg) env = ((false, none), false))
      ∧ (∀ st : Status, cfg.status = some st → st.up = false →
          IsUp (some cfg) env = ((false, none), false))
      ∧ (∀ st : Status, cfg.status = some st → st.up = true →
          IsUp (some cfg) env = ((true, env.checkHealthRes), true)) := by
  refine ⟨rfl, ?_, ?_, ?_⟩
  · intro h
    simp [IsUp, h]
  · intro st h hup
    simp [IsUp, h, hup]
  · intro st h hup
    simp [IsUp, h, hup]

/-- C9 (witness): with `Status.Up` set, `IsUp` reports up and runs the
health check. -/
theorem c9_witness :
    IsUp (some cfgStatusUp) env0 = ((true, none), true) :=
  (c9_isup cfgStatusUp env0).2.2.2 ⟨true⟩ rfl rfl

/-- C10: every `down` run attempts the six fixed infrastructure deletions —
keypair, cluster, encryption key, IAM role, VPC, bucket — unconditionally
and in exactly that order, whatever the flags, handles and failures; only
the 30 second pre-VPC settle sleep is conditional, present exactly when the
VPC was created by this tool. -/
theorem c10_down_infra_unconditional (cfg : Config) (env : Env) :
    (downTrace cfg env).filter isInfraDel =
        [Event.keyPairDel, Event.clusterDel, Event.encryptionDel,
         Event.roleDel, Event.vpcDel, Event.s3Del]
      ∧ ((Event.sleep 30 ∈ downTrace cfg env) ↔ cfg.vpcCreate = true) :=
  ⟨downTrace_filter_infra cfg env, sleep30_mem_downTrace_iff cfg env⟩

end EKS
